import Mathlib

/-!
Verification of the connection-pool manager of this repository.

Two wrapper variants exist in the source:
* `src/utils/database_wrapper/base.py` (namespace `Base` below): the psycopg3
  variant with a class-level registry, a background monitor, a retry/backoff
  acquisition strategy and an emergency cleanup path.
* `src/utils/database_wrapper.py` (namespace `Wrapper2` below): the psycopg2
  variant whose `get_new_connection` validates a pooled connection with a
  `SELECT 1` round trip.

Timestamps and delays are modelled as rationals (seconds); machine floats in
the source only ever hold exact binary values (0.01, 0.5, doubling), so the
rational model is exact where the claims look.  Python exceptions are
modelled with `Except`; where the source mutates shared dictionaries, the
model threads an explicit state and an error also carries the state at the
point the exception was raised.
-/

set_option autoImplicit false

namespace Base

/-- Models a database exception `e`; `transient` records the result of the
test `"too many clients already" in str(e)` used by the source. -/
structure DbErr where
  transient : Bool
  deriving DecidableEq, Repr

/-- Models a psycopg connection handle; `closedFlag` is the `closed`
attribute read by the source (psycopg connections always have it, so the
`hasattr(conn, 'closed')` guard in the source is modelled as true). -/
structure Conn where
  id : Nat
  closedFlag : Bool
  deriving DecidableEq, Repr

/-- `max_retries = 10` from `get_new_connection` (base.py line 133). -/
def max_retries : Nat := 10

/-- The no-pool retry loop of `DatabaseWrapper.get_new_connection`
(base.py lines 133-151).  The source keeps `retry_count` counting up to
`max_retries`; the model recurses on `retriesLeft = max_retries - retry_count`
so that the recursion is structural.  `factory i` is the outcome of the i-th
call to `super().get_new_connection(conn_params)`; `sleeps` accumulates the
arguments of `time.sleep` in order.  On a transient error with retries left:
`retry_count += 1; time.sleep(retry_delay); retry_delay *= 2`; any other
failure, or an exhausted bound, re-raises. -/
def retryOpen (factory : Nat → Except DbErr Conn) :
    Nat → Nat → ℚ → List ℚ → Except DbErr Conn × List ℚ
  | attempt, 0, _, sleeps =>
    -- retry_count = max_retries: the guard `retry_count < max_retries` is
    -- false, so any failure re-raises
    match factory attempt with
    | .ok c => (.ok c, sleeps)
    | .error e => (.error e, sleeps)
  | attempt, left + 1, delay, sleeps =>
    match factory attempt with
    | .ok c => (.ok c, sleeps)
    | .error e =>
      if e.transient then
        retryOpen factory (attempt + 1) left (delay * 2) (sleeps ++ [delay])
      else (.error e, sleeps)

/-- Entry point of the no-pool branch: `retry_count = 0`,
`retry_delay = 0.01` (base.py lines 134-135). -/
def getNewConnectionNoPool (factory : Nat → Except DbErr Conn) :
    Except DbErr Conn × List ℚ :=
  retryOpen factory 0 max_retries (1 / 100) []

/-!
Python dictionaries holding per-alias pool settings (`_pool_settings`
entries) are modelled as association lists from string keys to rational
values; `datetime` timestamps and `timedelta` durations are rationals in
seconds.  `dictGet` models `d.get(k)` / the truthiness of `k in d`,
`dictGetD` models `d.get(k, default)`, and a plain subscript `d[k]` on a
missing key is a `KeyError`, modelled by the `.error` branches below.
-/

abbrev Dict := List (String × ℚ)

def dictGet (d : Dict) (k : String) : Option ℚ := List.lookup k d

def dictGetD (d : Dict) (k : String) (v : ℚ) : ℚ := (dictGet d k).getD v

def dictSet : Dict → String → ℚ → Dict
  | [], k, v => [(k, v)]
  | (k1, v1) :: rest, k, v =>
    if k1 = k then (k, v) :: rest else (k1, v1) :: dictSet rest k v

/-- The `_pool_settings[alias]` entry written by `DatabaseWrapper.__init__`
(base.py lines 28-34).  Exactly these five keys are stored; in particular
neither `recycle_threshold` nor `max_conn_age` is ever written, although
`__init__` reads both options onto the instance (lines 23-24). -/
def initSettings (min_connections max_connections max_overflow timeout
    created_at : ℚ) : Dict :=
  [("min_connections", min_connections),
   ("max_connections", max_connections),
   ("max_overflow", max_overflow),
   ("timeout", timeout),
   ("created_at", created_at)]

/-- The monitor only reads `pool.busy` from a pool object before anything
else in the per-alias body; the pool handle is otherwise opaque here. -/
structure PoolView where
  busy : ℚ
  deriving DecidableEq, Repr

/-- State threaded through one monitor sweep: the `_connection_pools` map
plus logs of what the sweep did.  `examined` records every alias whose loop
body was entered, in order; `warnings`, `errorsLogged` and `infos` record
the `logging` calls; `resizes` records `pool.resize(target)` calls;
`closedPools` records pools closed by the age check. -/
structure SweepState where
  pools : List (String × PoolView)
  examined : List String
  warnings : List String
  errorsLogged : List String
  infos : List String
  resizes : List (String × ℚ)
  closedPools : List String
  deriving DecidableEq, Repr

/-- The per-alias body of `_check_all_pools` (base.py lines 64-83).  An
uncaught exception is returned as `.error (message, state at the raise)`,
mirroring that the Python exception aborts the `for` loop while the dict
mutations performed so far persist.  The two `try/except` blocks around
`pool.resize` and around `pool.close(); del ...` are modelled by the
`resizeRaises` / `closeRaises` oracles: a raise there is logged and the body
continues (for `resize`) or skips the `del` (for `close`). -/
def checkAlias (al : String) (settings : Dict)
    (resizeRaises closeRaises : String → Bool) (now : ℚ)
    (st : SweepState) : Except (String × SweepState) SweepState :=
  match List.lookup al st.pools with
  | none => .ok st
  | some pool =>
    -- line 68, evaluated left to right: `pool.busy >
    --   settings['max_connections'] * _pool_settings[al]['recycle_threshold']`
    match dictGet settings "max_connections" with
    | none => .error ("KeyError: max_connections", st)
    | some maxConnections =>
      match dictGet settings "recycle_threshold" with
      | none => .error ("KeyError: recycle_threshold", st)
      | some threshold =>
        let st1 :=
          if pool.busy > maxConnections * threshold then
            let st0 := { st with warnings := st.warnings ++
              ["Pool " ++ al ++ " is nearing capacity, recycling connections"] }
            -- try: pool.resize(settings['min_connections']) except: log
            match dictGet settings "min_connections" with
            | none =>
              { st0 with errorsLogged := st0.errorsLogged ++
                ["Failed to resize pool " ++ al] }
            | some target =>
              if resizeRaises al then
                { st0 with errorsLogged := st0.errorsLogged ++
                  ["Failed to resize pool " ++ al] }
              else { st0 with resizes := st0.resizes ++ [(al, target)] }
          else st
        -- age check, lines 75-83
        let age := now - dictGetD settings "created_at" now
        if age > dictGetD settings "max_conn_age" 1800 then
          let st2 := { st1 with infos := st1.infos ++
            ["Pool " ++ al ++ " has reached max age, recreating"] }
          if closeRaises al then
            -- pool.close() raised: the `del` is skipped, the error is logged
            .ok { st2 with errorsLogged := st2.errorsLogged ++
              ["Error closing aged pool " ++ al] }
          else
            .ok { st2 with
              pools := st2.pools.eraseP (fun q => q.1 == al),
              closedPools := st2.closedPools ++ [al] }
        else .ok st1

/-- `_check_all_pools` (base.py lines 59-83): iterate over the
`_pool_settings` registry; an exception raised by one al body aborts the
whole loop. -/
def checkAllPools (registry : List (String × Dict))
    (resizeRaises closeRaises : String → Bool) (now : ℚ)
    (st : SweepState) : Except (String × SweepState) SweepState :=
  match registry with
  | [] => .ok st
  | (al, settings) :: rest =>
    let st0 := { st with examined := st.examined ++ [al] }
    match checkAlias al settings resizeRaises closeRaises now st0 with
    | .error es => .error es
    | .ok st1 => checkAllPools rest resizeRaises closeRaises now st1

/-- One iteration of the `monitor_pools` loop body
(base.py lines 45-50): `try: cls._check_all_pools() except Exception as e:
logging.error(...)`.  The broad `except` converts any sweep exception into a
log entry, so the monitor thread itself never propagates an error. -/
def monitorTick (registry : List (String × Dict))
    (resizeRaises closeRaises : String → Bool) (now : ℚ)
    (st : SweepState) : SweepState × List String :=
  match checkAllPools registry resizeRaises closeRaises now st with
  | .ok st1 => (st1, [])
  | .error (e, st1) => (st1, ["Error in pool monitor: " ++ e])

/-- Projection helpers on a sweep outcome. -/
def sweepExamined : Except (String × SweepState) SweepState → List String
  | .ok st => st.examined
  | .error (_, st) => st.examined

def sweepAborted : Except (String × SweepState) SweepState → Bool
  | .ok _ => false
  | .error _ => true

/-- Django's `NO_DB_ALIAS` constant. -/
def NO_DB_ALIAS : String := "__no_db__"

/-- The class-level shared state of `DatabaseWrapper` (base.py lines 12-13):
`_connection_pools` maps an alias to its pool (pools are identified by `Nat`
handles, created fresh from `nextPoolId`), `_pool_settings` maps an alias to
its settings dict. -/
structure WState where
  connection_pools : List (String × Nat)
  pool_settings : List (String × Dict)
  nextPoolId : Nat
  deriving DecidableEq, Repr

/-- Exceptions of the acquisition path: `db` wraps an exception from the
database driver or pool (with its transient flag), `config` is Django's
`ImproperlyConfigured`, `keyError` a Python `KeyError`. -/
inductive Err
  | db (e : DbErr)
  | config (msg : String)
  | keyError (msg : String)
  deriving DecidableEq, Repr

/-- Replace the settings dict stored for an alias. -/
def setSettings (reg : List (String × Dict)) (al : String) (d : Dict) :
    List (String × Dict) :=
  reg.map (fun q => if q.1 = al then (al, d) else q)

/-- `pool.pop(alias, None)` on the `_connection_pools` dict. -/
def popAlias (al : String) (ps : List (String × Nat)) : List (String × Nat) :=
  ps.filter (fun q => !(q.1 == al))

/-- The `pool` property (base.py lines 85-128).  `pool_options` is the
truthiness of `settings_dict["OPTIONS"].get("pool")`, `conn_max_age` is
`settings_dict.get("CONN_MAX_AGE", 0)`.  The psycopg_pool import and the
`ConnectionPool` constructor are external collaborators modelled as
succeeding; a freshly constructed pool gets the handle `st.nextPoolId`.
On the creation path the source first stores the new pool (line 125) and
then subscripts `_pool_settings[alias]` to stamp `created_at` (line 126),
so a missing settings entry raises `KeyError` with the pool already stored.
An error carries the state at the raise. -/
def poolProp (al : String) (pool_options : Bool) (conn_max_age : Int)
    (now : ℚ) (st : WState) : Except (Err × WState) (Option Nat × WState) :=
  if al = NO_DB_ALIAS ∨ pool_options = false then .ok (none, st)
  else
    match List.lookup al st.connection_pools with
    | some pid => .ok (some pid, st)
    | none =>
      if conn_max_age ≠ 0 then
        .error (.config "Pooling does not support persistent connections.", st)
      else
        let pid := st.nextPoolId
        let st1 : WState :=
          { st with connection_pools := (al, pid) :: st.connection_pools,
                    nextPoolId := pid + 1 }
        match List.lookup al st1.pool_settings with
        | none => .error (.keyError "created_at", st1)
        | some s =>
          .ok (some pid,
            { st1 with pool_settings :=
                setSettings st1.pool_settings al (dictSet s "created_at" now) })

/-- Behaviour of one psycopg_pool pool object, an external collaborator:
`res k` is the outcome of the k-th `getconn()` call on this pool,
`putconnErr` a possible exception from `putconn(conn, close=True)`,
`closeRaises` whether `pool.close()` raises. -/
structure PoolB where
  res : Nat → Except DbErr Conn
  putconnErr : Option DbErr
  closeRaises : Bool

/-- What `_cleanup_connections` did. -/
structure CleanupLog where
  success : Bool
  poppedOld : Bool
  closeAttempted : Bool
  sleeps : List ℚ
  state : WState

/-- `_cleanup_connections` (base.py lines 193-218): re-evaluate `self.pool`
(line 195; an exception there propagates, a falsy pool returns `False`);
inside the `try`: pop the alias from the registry, close the old pool
best-effort (`try ... except: pass`, so `closeRaises` is swallowed either
way), `time.sleep(0.5)`, then re-evaluate `self.pool` to recreate it; an
exception during recreation is caught by the outer `except`, logged, and
turned into `return False`. -/
def cleanupConnections (al : String) (pool_options : Bool)
    (conn_max_age : Int) (now : ℚ) (st : WState) :
    Except (Err × WState) CleanupLog :=
  match poolProp al pool_options conn_max_age now st with
  | .error es => .error es
  | .ok (none, st0) =>
    .ok { success := false, poppedOld := false, closeAttempted := false,
          sleeps := [], state := st0 }
  | .ok (some _, st0) =>
    let st1 : WState :=
      { st0 with connection_pools := popAlias al st0.connection_pools }
    match poolProp al pool_options conn_max_age now st1 with
    | .error (_, st2) =>
      .ok { success := false, poppedOld := true, closeAttempted := true,
            sleeps := [1 / 2], state := st2 }
    | .ok (_, st2) =>
      .ok { success := true, poppedOld := true, closeAttempted := true,
            sleeps := [1 / 2], state := st2 }

/-- Outcome of one `get_new_connection` call: the returned connection or
raised exception, the `time.sleep` calls made on the pooled path, how many
times `_cleanup_connections` ran, whether the old pool was popped from the
registry and its close attempted, and the final shared state. -/
structure AcqResult where
  result : Except Err Conn
  sleeps : List ℚ
  cleanups : Nat
  poppedOld : Bool
  closeAttempted : Bool
  finalState : WState

def liftD : Except DbErr Conn → Except Err Conn
  | .ok c => .ok c
  | .error e => .error (.db e)

/-- The `except` handler of the pooled path (base.py lines 162-168): on a
transient "too many clients already" error run `_cleanup_connections` and
then return `self.pool.getconn()` — evaluated on the freshly rebuilt pool,
with no further handling — otherwise re-raise. -/
def handlePoolExc (al : String) (pool_options : Bool) (conn_max_age : Int)
    (now : ℚ) (behaviorOf : Nat → PoolB) (st : WState) (e : DbErr) :
    AcqResult :=
  if e.transient then
    match cleanupConnections al pool_options conn_max_age now st with
    | .error (e2, st2) =>
      { result := .error e2, sleeps := [], cleanups := 1,
        poppedOld := false, closeAttempted := false, finalState := st2 }
    | .ok log =>
      match poolProp al pool_options conn_max_age now log.state with
      | .error (e3, st3) =>
        { result := .error e3, sleeps := log.sleeps, cleanups := 1,
          poppedOld := log.poppedOld, closeAttempted := log.closeAttempted,
          finalState := st3 }
      | .ok (none, st3) =>
        { result := .error (.config "NoneType has no attribute getconn"),
          sleeps := log.sleeps, cleanups := 1, poppedOld := log.poppedOld,
          closeAttempted := log.closeAttempted, finalState := st3 }
      | .ok (some pid2, st3) =>
        { result := liftD ((behaviorOf pid2).res 0), sleeps := log.sleeps,
          cleanups := 1, poppedOld := log.poppedOld,
          closeAttempted := log.closeAttempted, finalState := st3 }
  else
    { result := .error (.db e), sleeps := [], cleanups := 0,
      poppedOld := false, closeAttempted := false, finalState := st }

/-- The pooled path of `get_new_connection` (base.py lines 153-168):
`conn = self.pool.getconn()`; a connection whose `closed` attribute is
false is returned; otherwise `putconn(conn, close=True)` then one more
`getconn()`, whose successful value is returned unvalidated; any exception
in the `try` goes to `handlePoolExc`. -/
def pooledAcquire (al : String) (pool_options : Bool) (conn_max_age : Int)
    (now : ℚ) (behaviorOf : Nat → PoolB) (pid : Nat) (st : WState) :
    AcqResult :=
  match (behaviorOf pid).res 0 with
  | .ok c =>
    if c.closedFlag = false then
      { result := .ok c, sleeps := [], cleanups := 0, poppedOld := false,
        closeAttempted := false, finalState := st }
    else
      match (behaviorOf pid).putconnErr with
      | some e => handlePoolExc al pool_options conn_max_age now behaviorOf st e
      | none =>
        match (behaviorOf pid).res 1 with
        | .ok c2 =>
          { result := .ok c2, sleeps := [], cleanups := 0, poppedOld := false,
            closeAttempted := false, finalState := st }
        | .error e => handlePoolExc al pool_options conn_max_age now behaviorOf st e
  | .error e => handlePoolExc al pool_options conn_max_age now behaviorOf st e

/-- `get_new_connection` (base.py lines 130-168): evaluate `self.pool`
(line 132, outside any `try`, so an exception there propagates untouched);
with no pool run the retry loop; with a pool run the pooled path. -/
def get_new_connection (al : String) (pool_options : Bool)
    (conn_max_age : Int) (now : ℚ) (factory : Nat → Except DbErr Conn)
    (behaviorOf : Nat → PoolB) (st : WState) : AcqResult :=
  match poolProp al pool_options conn_max_age now st with
  | .error (e, st1) =>
    { result := .error e, sleeps := [], cleanups := 0, poppedOld := false,
      closeAttempted := false, finalState := st1 }
  | .ok (none, st1) =>
    let r := getNewConnectionNoPool factory
    { result := liftD r.1, sleeps := r.2, cleanups := 0, poppedOld := false,
      closeAttempted := false, finalState := st1 }
  | .ok (some pid, st1) =>
    pooledAcquire al pool_options conn_max_age now behaviorOf pid st1

/-- The attributes `get_pool_status` reads off the psycopg_pool object
(base.py lines 252-261); the pool is an external collaborator, so these are
opaque nonnegative counters. -/
structure PsyPoolStats where
  size : Nat
  min_size : Nat
  max_size : Nat
  max_overflow : Nat
  overflow : Nat
  idle : Nat
  busy : Nat
  deriving DecidableEq, Repr

/-- The dictionary returned on the active path of `get_pool_status`. -/
structure PoolStatusReport where
  size : Nat
  min_size : Nat
  max_size : Nat
  max_overflow : Nat
  overflow : Nat
  idle : Nat
  busy : Nat
  usage_percent : ℚ
  created_at : Option ℚ
  deriving DecidableEq, Repr

/-- The active-path body of `get_pool_status` (base.py lines 252-263):
`usage_percent = busy / max_size * 100 if max_size > 0 else 0`;
`created_at = _pool_settings.get(alias, {}).get('created_at')`. -/
def statusReport (p : PsyPoolStats) (created_at : Option ℚ) :
    PoolStatusReport :=
  { size := p.size, min_size := p.min_size, max_size := p.max_size,
    max_overflow := p.max_overflow, overflow := p.overflow,
    idle := p.idle, busy := p.busy,
    usage_percent :=
      if p.max_size > 0 then (p.busy : ℚ) / (p.max_size : ℚ) * 100 else 0,
    created_at := created_at }

inductive PoolStatus
  | disabled
  | active (report : PoolStatusReport)
  deriving DecidableEq, Repr

/-- `get_pool_status` (base.py lines 247-263): `{"status": "disabled"}`
when there is no pool, otherwise the full report. -/
def get_pool_status (p : Option PsyPoolStats) (created_at : Option ℚ) :
    PoolStatus :=
  match p with
  | none => .disabled
  | some q => .active (statusReport q created_at)

/-- Result of one `close()` call on the wrapper (base.py lines 170-191):
the value of `self.connection` afterwards, whether the call raised on the
pool path, whether the connection was returned to the pool via `putconn`,
and whether a best-effort force close was attempted. -/
structure CloseResult where
  connection : Option Conn
  raised : Bool
  returnedToPool : Bool
  forceCloseAttempted : Bool
  deriving DecidableEq, Repr

/-- `close()` (base.py lines 170-191).  `putconnRaises` is whether
`self.pool.putconn(self.connection)` raises; `forceCloseRaises` is whether
the force close inside the handler raises (it is swallowed by the bare
`except: pass` either way).  With no connection or no pool the call
delegates to Django's `super().close()`, which also ends with
`self.connection = None`. -/
def closeWrapper (conn : Option Conn) (hasPool : Bool)
    (putconnRaises forceCloseRaises : Bool) : CloseResult :=
  match conn, hasPool with
  | none, _ =>
    { connection := none, raised := false, returnedToPool := false,
      forceCloseAttempted := false }
  | some _, false =>
    { connection := none, raised := false, returnedToPool := false,
      forceCloseAttempted := false }
  | some c, true =>
    if c.closedFlag then
      -- line 176-178: connection already closed
      { connection := none, raised := false, returnedToPool := false,
        forceCloseAttempted := false }
    else if putconnRaises = false then
      -- lines 181-182: returned to the pool
      { connection := none, raised := false, returnedToPool := true,
        forceCloseAttempted := false }
    else
      -- lines 183-191: log, force close best-effort (forceCloseRaises is
      -- swallowed by the bare except), then self.connection = None
      { connection := none, raised := false, returnedToPool := false,
        forceCloseAttempted := true }

end Base

namespace Wrapper2

/-!
Model of `src/utils/database_wrapper.py`, the psycopg2 variant.  The pool it
delegates to is psycopg2's `ThreadedConnectionPool`; its `getconn` /
`putconn(close=True)` behaviour is modelled after psycopg2
(`AbstractConnectionPool._getconn` / `_putconn`): `getconn` pops an idle
connection if one exists, otherwise raises "connection pool exhausted" once
`len(self._used) == self.maxconn`, otherwise opens a brand new raw
connection; `putconn(conn, close=True)` closes the connection and removes it
from the used set without returning it to the idle list.  Connections are
identified by `Nat` handles; `connectErr` lets the underlying raw connect
fail (e.g. a database-side error). -/

structure P2Pool where
  avail : List Nat
  used : List Nat
  nextId : Nat
  maxconn : Nat
  connectErr : Option String
  deriving DecidableEq, Repr

def getconn (p : P2Pool) : Except String (Nat × P2Pool) :=
  match p.avail with
  | c :: rest => .ok (c, { p with avail := rest, used := c :: p.used })
  | [] =>
    if p.used.length = p.maxconn then .error "connection pool exhausted"
    else
      match p.connectErr with
      | some msg => .error msg
      | none => .ok (p.nextId, { p with used := p.nextId :: p.used, nextId := p.nextId + 1 })

/-- `putconn(connection, close=True)`: the connection is closed and dropped
from the used set; it is not returned to the idle list. -/
def putconnClose (p : P2Pool) (c : Nat) : P2Pool :=
  { p with used := p.used.erase c }

/-- Number of live connections owned by the pool (its current capacity). -/
def size (p : P2Pool) : Nat := p.avail.length + p.used.length

/-- The pool-acquisition part of `DatabaseWrapper.get_new_connection`
(database_wrapper.py lines 31-40): take a connection, probe it with
`cursor.execute("SELECT 1")` (modelled by the `healthy` oracle); on probe
failure, `putconn(connection, close=True)` then one replacement `getconn`,
whose outcome (success or failure) is returned to the caller unchanged. -/
def get_new_connection (healthy : Nat → Bool) (p : P2Pool) :
    Except String (Nat × P2Pool) :=
  match getconn p with
  | .error e => .error e
  | .ok (c, p1) =>
    if healthy c then .ok (c, p1)
    else getconn (putconnClose p1 c)

end Wrapper2

/-- Example factory for the C1 witness: fails transiently on attempts 0, 1, 2
and succeeds on attempt 3. -/
def c1ExFactory : Nat → Except Base.DbErr Base.Conn :=
  fun i => if i < 3 then .error ⟨true⟩ else .ok ⟨42, false⟩

/-- Example pool for the C2 witness: one idle connection `5` that fails the
probe; the replacement acquisition opens fresh connection `0`. -/
def c2ExPool : Wrapper2.P2Pool :=
  { avail := [5], used := [], nextId := 0, maxconn := 2, connectErr := none }

def c4Reg : List (String × Base.Dict) :=
  [("a", Base.initSettings 1 10 5 3000 0), ("b", Base.initSettings 1 10 5 3000 0)]

def c4St : Base.SweepState :=
  ⟨[("a", ⟨9⟩), ("b", ⟨9⟩)], [], [], [], [], [], []⟩

/-- Concrete environment for the C8 witness: alias "default" with pool
handle 0 whose every `getconn` raises the transient exhaustion error; the
rebuilt pool (handle 1) hands out connection 7. -/
def c8ExBehavior : Nat → Base.PoolB :=
  fun pid =>
    if pid = 0 then ⟨fun _ => .error ⟨true⟩, none, false⟩
    else ⟨fun _ => .ok ⟨7, false⟩, none, false⟩

def c8ExState : Base.WState :=
  ⟨[("default", 0)], [("default", Base.initSettings 1 10 5 3000 0)], 1⟩

namespace Base

theorem retryOpen_all_transient (factory : Nat → Except DbErr Conn)
    (h : ∀ i, factory i = .error ⟨true⟩) :
    ∀ retriesLeft attempt delay sleeps,
      (retryOpen factory attempt retriesLeft delay sleeps).1 = .error ⟨true⟩ ∧
      (retryOpen factory attempt retriesLeft delay sleeps).2.length =
        sleeps.length + retriesLeft := by
  intro retriesLeft
  induction retriesLeft with
  | zero =>
    intro attempt delay sleeps
    simp [retryOpen, h attempt]
  | succ left ih =>
    intro attempt delay sleeps
    have hrec := ih (attempt + 1) (delay * 2) (sleeps ++ [delay])
    simp only [retryOpen, h attempt]
    rw [if_pos trivial]
    refine ⟨hrec.1, ?_⟩
    have h2 := hrec.2
    simp only [List.length_append, List.length_singleton] at h2
    rw [h2]
    omega

end Base

namespace Wrapper2

theorem getconn_ok_used (p p1 : P2Pool) (c : Nat)
    (h : getconn p = .ok (c, p1)) : p1.used = c :: p.used := by
  unfold getconn at h
  rcases hav : p.avail with _ | ⟨a, rest⟩
  · rw [hav] at h
    simp only at h
    by_cases hlen : p.used.length = p.maxconn
    · simp [hlen] at h
    · rcases hce : p.connectErr with _ | msg
      · simp [hlen, hce] at h
        rw [← h.2]
        simp [h.1]
      · simp [hlen, hce] at h
  · rw [hav] at h
    simp only [Except.ok.injEq, Prod.mk.injEq] at h
    rw [← h.2]
    simp [h.1]

end Wrapper2

/-- C1: when no pool is available, `get_new_connection` retries a transient
"too many clients already" failure up to 10 times with exponential backoff
(initial delay 0.01 s, doubled after each failed attempt); a non-transient
failure propagates immediately with no sleeps, and an all-transient factory
exhausts exactly 10 retries before the failure propagates.  A factory that
fails transiently exactly 3 times and then succeeds yields the live
connection on the 4th attempt with strictly increasing delays
0.01, 0.02, 0.04. -/
theorem c1_retry_backoff_no_pool :
    (∀ (factory : Nat → Except Base.DbErr Base.Conn) (c : Base.Conn),
        (∀ i, i < 3 → factory i = .error ⟨true⟩) → factory 3 = .ok c →
        Base.getNewConnectionNoPool factory =
          (.ok c, [1 / 100, 2 / 100, 4 / 100]) ∧
        List.Chain' (· < ·) ([1 / 100, 2 / 100, 4 / 100] : List ℚ)) ∧
    (∀ (factory : Nat → Except Base.DbErr Base.Conn) (e : Base.DbErr),
        factory 0 = .error e → e.transient = false →
        Base.getNewConnectionNoPool factory = (.error e, [])) ∧
    (∀ (factory : Nat → Except Base.DbErr Base.Conn),
        (∀ i, factory i = .error ⟨true⟩) →
        (Base.getNewConnectionNoPool factory).1 = .error ⟨true⟩ ∧
        (Base.getNewConnectionNoPool factory).2.length = Base.max_retries) := by
  refine ⟨?_, ?_, ?_⟩
  · intro factory c h3 h4
    have h0 := h3 0 (by norm_num)
    have h1 := h3 1 (by norm_num)
    have h2 := h3 2 (by norm_num)
    constructor
    · simp only [Base.getNewConnectionNoPool, Base.max_retries]
      rw [Base.retryOpen]
      simp only [h0]
      rw [Base.retryOpen]
      simp only [h1]
      rw [Base.retryOpen]
      simp only [h2]
      rw [Base.retryOpen]
      simp only [h4]
      norm_num
    · simp only [List.chain'_cons, List.chain'_singleton, and_true]
      norm_num
  · intro factory e h0 ht
    simp only [Base.getNewConnectionNoPool, Base.max_retries]
    rw [Base.retryOpen]
    simp [h0, ht]
  · intro factory h
    have hall := Base.retryOpen_all_transient factory h Base.max_retries 0 (1 / 100) []
    refine ⟨hall.1, ?_⟩
    simp only [Base.getNewConnectionNoPool]
    simp only [List.length_nil, Nat.zero_add] at hall
    exact hall.2

theorem c1_retry_backoff_no_pool_witness :
    Base.getNewConnectionNoPool c1ExFactory =
      (.ok ⟨42, false⟩, [1 / 100, 2 / 100, 4 / 100]) :=
  (c1_retry_backoff_no_pool.1 c1ExFactory ⟨42, false⟩
    (by intro i hi; interval_cases i <;> rfl) rfl).1

/-- C2: before handing a pooled connection to a caller,
`get_new_connection` (database_wrapper.py) validates it with a `SELECT 1`
round-trip probe; a connection that passes is returned as is, and a
connection that fails the probe is discarded via `putconn(close=True)`
(closing it and decrementing the pool capacity by one), after which exactly
one replacement acquisition from the same pool is performed and its outcome
— success or failure — is what the caller sees. -/
theorem c2_pooled_validation_probe :
    (∀ (healthy : Nat → Bool) (p p1 : Wrapper2.P2Pool) (c : Nat),
        Wrapper2.getconn p = .ok (c, p1) → healthy c = true →
        Wrapper2.get_new_connection healthy p = .ok (c, p1)) ∧
    (∀ (healthy : Nat → Bool) (p p1 : Wrapper2.P2Pool) (c : Nat),
        Wrapper2.getconn p = .ok (c, p1) → healthy c = false →
        Wrapper2.get_new_connection healthy p =
          Wrapper2.getconn (Wrapper2.putconnClose p1 c) ∧
        Wrapper2.size (Wrapper2.putconnClose p1 c) + 1 = Wrapper2.size p1) := by
  constructor
  · intro healthy p p1 c h hh
    simp [Wrapper2.get_new_connection, h, hh]
  · intro healthy p p1 c h hh
    constructor
    · simp [Wrapper2.get_new_connection, h, hh]
    · have hu := Wrapper2.getconn_ok_used p p1 c h
      simp [Wrapper2.size, Wrapper2.putconnClose, hu]
      omega

theorem c2_pooled_validation_probe_witness :
    Wrapper2.get_new_connection (fun _ => false) c2ExPool =
      Wrapper2.getconn (Wrapper2.putconnClose
        { avail := [], used := [5], nextId := 0, maxconn := 2, connectErr := none } 5) ∧
    Wrapper2.size (Wrapper2.putconnClose
      { avail := [], used := [5], nextId := 0, maxconn := 2, connectErr := none } 5) + 1 =
      Wrapper2.size
        { avail := [], used := [5], nextId := 0, maxconn := 2, connectErr := none } :=
  c2_pooled_validation_probe.2 (fun _ => false) c2ExPool
    { avail := [], used := [5], nextId := 0, maxconn := 2, connectErr := none } 5 rfl rfl

/-- C3 (code bug): the capacity check of `_check_all_pools` never compares
`busy` against `maxConnections * recycleThreshold` and never resizes:
`__init__` stores only five keys in `_pool_settings[alias]` (see
`initSettings`), so the subscript `_pool_settings[alias]['recycle_threshold']`
on line 68 raises `KeyError` for every alias that has a pool, before any
warning, resize or age check, leaving the sweep state exactly as it was.
This holds for every configuration and every busy count — in particular at
the spec example busy = 9, maxConnections = 10, recycleThreshold = 0.8. -/
theorem c3_capacity_check_keyerror (minC maxC ovf t ca busy now : ℚ)
    (resizeRaises closeRaises : String → Bool) (al : String)
    (rest : List (String × Base.PoolView))
    (ex w el inf : List String) (rz : List (String × ℚ)) (cp : List String) :
    Base.checkAlias al (Base.initSettings minC maxC ovf t ca)
        resizeRaises closeRaises now
        ⟨(al, ⟨busy⟩) :: rest, ex, w, el, inf, rz, cp⟩ =
      .error ("KeyError: recycle_threshold",
        ⟨(al, ⟨busy⟩) :: rest, ex, w, el, inf, rz, cp⟩) := by
  simp [Base.checkAlias, Base.initSettings, Base.dictGet, List.lookup]

/-- C4 counterexample: with two pooled aliases in the registry, the error
raised while evaluating alias "a" (the `KeyError` of the capacity check)
aborts the sweep, and alias "b" is never evaluated in that sweep — refuting
the claim that every other alias is still evaluated. -/
theorem c4_sweep_abort_counterexample :
    Base.sweepAborted
        (Base.checkAllPools c4Reg (fun _ => false) (fun _ => false) 0 c4St) = true ∧
    Base.sweepExamined
        (Base.checkAllPools c4Reg (fun _ => false) (fun _ => false) 0 c4St) = ["a"] ∧
    "b" ∉ Base.sweepExamined
        (Base.checkAllPools c4Reg (fun _ => false) (fun _ => false) 0 c4St) := by
  refine ⟨rfl, rfl, ?_⟩
  intro hmem
  rw [show Base.sweepExamined
      (Base.checkAllPools c4Reg (fun _ => false) (fun _ => false) 0 c4St)
      = ["a"] from rfl] at hmem
  simp at hmem

/-- Helper: an alias with no pool leaves the sweep state untouched
(`if alias in cls._connection_pools` is false, base.py line 65). -/
theorem checkAlias_no_pool (al : String) (s : Base.Dict)
    (rr cr : String → Bool) (now : ℚ) (st : Base.SweepState)
    (h : List.lookup al st.pools = none) :
    Base.checkAlias al s rr cr now st = .ok st := by
  simp only [Base.checkAlias, h]

/-- Helper: an alias with a pool whose settings were stored by `__init__`
always raises the `recycle_threshold` `KeyError` (base.py line 68). -/
theorem checkAlias_init_pool (al : String) (minC maxC ovf t ca now : ℚ)
    (rr cr : String → Bool) (st : Base.SweepState) (pv : Base.PoolView)
    (h : List.lookup al st.pools = some pv) :
    Base.checkAlias al (Base.initSettings minC maxC ovf t ca) rr cr now st =
      .error ("KeyError: recycle_threshold", st) := by
  simp only [Base.checkAlias, h, Base.initSettings, Base.dictGet]
  simp [List.lookup]

/-- C4 (amended): failures of the `resize` call and of the `close` call are
caught and logged per alias without interrupting the sweep, but any other
error evaluating an alias — and the capacity-check `KeyError` occurs for
every alias that has a pool — aborts the sweep for all remaining aliases;
the monitor loop catches and logs any sweep error, so no sweep error ever
propagates to a caller.  First conjunct: when every registry alias before
one pooled alias has no pool, the sweep errors at that alias and the aliases
examined are exactly the prefix up to and including it.  Second conjunct:
`monitor_pools` converts any sweep error into a log entry. -/
theorem c4_sweep_error_containment :
    (∀ (pre : List (String × Base.Dict)) (al : String)
       (minC maxC ovf t ca now : ℚ) (post : List (String × Base.Dict))
       (rr cr : String → Bool) (st : Base.SweepState) (pv : Base.PoolView),
       (∀ q ∈ pre, List.lookup q.1 st.pools = none) →
       List.lookup al st.pools = some pv →
       Base.checkAllPools
           (pre ++ (al, Base.initSettings minC maxC ovf t ca) :: post)
           rr cr now st =
         .error ("KeyError: recycle_threshold",
           { st with examined := st.examined ++ pre.map Prod.fst ++ [al] })) ∧
    (∀ (registry : List (String × Base.Dict)) (rr cr : String → Bool)
       (now : ℚ) (st st1 : Base.SweepState) (e : String),
       Base.checkAllPools registry rr cr now st = .error (e, st1) →
       Base.monitorTick registry rr cr now st =
         (st1, ["Error in pool monitor: " ++ e])) := by
  constructor
  · intro pre
    induction pre with
    | nil =>
      intro al minC maxC ovf t ca now post rr cr st pv _ hal
      simp only [List.nil_append, List.map_nil, List.append_nil]
      rw [Base.checkAllPools,
        checkAlias_init_pool al minC maxC ovf t ca now rr cr
          { st with examined := st.examined ++ [al] } pv hal]
    | cons hd tl ih =>
      intro al minC maxC ovf t ca now post rr cr st pv hpre hal
      have hhd : List.lookup hd.1 st.pools = none := hpre hd (by simp)
      rw [List.cons_append, Base.checkAllPools,
        checkAlias_no_pool hd.1 hd.2 rr cr now
          { st with examined := st.examined ++ [hd.1] } hhd]
      show Base.checkAllPools
          (tl ++ (al, Base.initSettings minC maxC ovf t ca) :: post) rr cr now
          { st with examined := st.examined ++ [hd.1] } = _
      rw [ih al minC maxC ovf t ca now post rr cr
        { st with examined := st.examined ++ [hd.1] } pv
        (fun q hq => hpre q (by simp [hq])) hal]
      simp [List.append_assoc]
  · intro registry rr cr now st st1 e h
    simp [Base.monitorTick, h]

theorem c4_sweep_error_containment_witness :
    Base.checkAllPools
        [("x", Base.initSettings 1 2 3 4 0), ("a", Base.initSettings 1 10 5 3000 0)]
        (fun _ => false) (fun _ => false) 0
        ⟨[("a", ⟨9⟩)], [], [], [], [], [], []⟩ =
      .error ("KeyError: recycle_threshold",
        ⟨[("a", ⟨9⟩)], ["x", "a"], [], [], [], [], []⟩) ∧
    Base.monitorTick
        [("x", Base.initSettings 1 2 3 4 0), ("a", Base.initSettings 1 10 5 3000 0)]
        (fun _ => false) (fun _ => false) 0
        ⟨[("a", ⟨9⟩)], [], [], [], [], [], []⟩ =
      (⟨[("a", ⟨9⟩)], ["x", "a"], [], [], [], [], []⟩,
        ["Error in pool monitor: KeyError: recycle_threshold"]) := by
  have h1 := c4_sweep_error_containment.1 [("x", Base.initSettings 1 2 3 4 0)]
    "a" 1 10 5 3000 0 0 [] (fun _ => false) (fun _ => false)
    ⟨[("a", ⟨9⟩)], [], [], [], [], [], []⟩ ⟨9⟩
    (by intro q hq; simp at hq; subst hq; rfl) rfl
  refine ⟨by simpa using h1, ?_⟩
  exact c4_sweep_error_containment.2 _ (fun _ => false) (fun _ => false) 0 _ _ _
    (by simpa using h1)

/-- C5 (code bug): an aged pool is never closed nor removed by the sweep:
for any alias with a pool whose stored `created_at` is far older than any
max age (here created_at = 0 at sweep time 100000 s, exceeding both the 1800 s
default and the age condition of the claim), the sweep aborts with the
capacity-check `KeyError` before the age check runs, so the pool is still
registered, nothing was closed, and no recreation can be triggered. -/
theorem c5_age_check_unreachable (minC maxC ovf t busy : ℚ)
    (resizeRaises closeRaises : String → Bool) :
    Base.checkAllPools [("default", Base.initSettings minC maxC ovf t 0)]
        resizeRaises closeRaises 100000
        ⟨[("default", ⟨busy⟩)], [], [], [], [], [], []⟩ =
      .error ("KeyError: recycle_threshold",
        ⟨[("default", ⟨busy⟩)], ["default"], [], [], [], [], []⟩) ∧
    (100000 : ℚ) - 0 > 1800 := by
  constructor
  · rw [Base.checkAllPools]
    simp [Base.checkAlias, Base.initSettings, Base.dictGet, List.lookup]
  · norm_num

/-- C6: pool access is idempotent when a pool already exists for the alias:
the `pool` property returns the stored pool handle and leaves the whole
registry state (pools map, settings map, fresh-handle counter) unchanged,
so repeated accesses for the same alias never construct a second pool. -/
theorem c6_pool_idempotent (al : String) (cma : Int) (now : ℚ)
    (st : Base.WState) (pid : Nat)
    (h1 : al ≠ Base.NO_DB_ALIAS)
    (h2 : List.lookup al st.connection_pools = some pid) :
    Base.poolProp al true cma now st = .ok (some pid, st) := by
  simp [Base.poolProp, h1, h2]

theorem c6_pool_idempotent_witness :
    Base.poolProp "default" true 0 99 ⟨[("default", 3)], [], 7⟩ =
      .ok (some 3, ⟨[("default", 3)], [], 7⟩) :=
  c6_pool_idempotent "default" 0 99 ⟨[("default", 3)], [], 7⟩ 3
    (by decide) rfl

/-- C7: with pooling enabled, a nonzero `CONN_MAX_AGE` and no existing pool
for the alias, the `pool` property raises `ImproperlyConfigured` at
pool-creation time with the registry unchanged (no pool added), and
`get_new_connection` propagates that error with zero retries, zero sleeps
and zero cleanups. -/
theorem c7_pooling_conn_max_age_conflict (al : String) (cma : Int)
    (now : ℚ) (st : Base.WState)
    (factory : Nat → Except Base.DbErr Base.Conn)
    (behaviorOf : Nat → Base.PoolB)
    (h1 : al ≠ Base.NO_DB_ALIAS)
    (h2 : List.lookup al st.connection_pools = none)
    (h3 : cma ≠ 0) :
    Base.poolProp al true cma now st =
      .error (.config "Pooling does not support persistent connections.", st) ∧
    Base.get_new_connection al true cma now factory behaviorOf st =
      { result := .error (.config "Pooling does not support persistent connections."),
        sleeps := [], cleanups := 0, poppedOld := false,
        closeAttempted := false, finalState := st } := by
  have hp : Base.poolProp al true cma now st =
      .error (.config "Pooling does not support persistent connections.", st) := by
    simp [Base.poolProp, h1, h2, h3]
  exact ⟨hp, by simp [Base.get_new_connection, hp]⟩

theorem c7_pooling_conn_max_age_conflict_witness :
    Base.poolProp "default" true 600 0 ⟨[], [], 0⟩ =
      .error (.config "Pooling does not support persistent connections.",
        ⟨[], [], 0⟩) ∧
    Base.get_new_connection "default" true 600 0
        (fun _ => .error ⟨true⟩) (fun _ => ⟨fun _ => .error ⟨true⟩, none, false⟩)
        ⟨[], [], 0⟩ =
      { result := .error (.config "Pooling does not support persistent connections."),
        sleeps := [], cleanups := 0, poppedOld := false,
        closeAttempted := false, finalState := ⟨[], [], 0⟩ } :=
  c7_pooling_conn_max_age_conflict "default" 600 0 ⟨[], [], 0⟩
    (fun _ => .error ⟨true⟩) (fun _ => ⟨fun _ => .error ⟨true⟩, none, false⟩)
    (by decide) rfl (by decide)

theorem lookup_popAlias (al : String) (l : List (String × Nat)) :
    List.lookup al (Base.popAlias al l) = none := by
  induction l with
  | nil => rfl
  | cons hd tl ih =>
    rcases hd with ⟨k, v⟩
    by_cases h : k = al
    · have hstep : Base.popAlias al ((k, v) :: tl) = Base.popAlias al tl := by
        simp [Base.popAlias, List.filter, h]
      rw [hstep, ih]
    · have hstep : Base.popAlias al ((k, v) :: tl) =
          (k, v) :: Base.popAlias al tl := by
        simp [Base.popAlias, List.filter, h]
        rw [show (k == al) = false by simp [h]]
        rfl
      rw [hstep]
      simp [List.lookup, show (al == k) = false by
        simp [Ne.symm h], ih]

/-- C8: when acquisition from an existing pool fails with a transient
"too many clients already" error, `get_new_connection` runs the emergency
recovery exactly once: the current pool is popped from the registry, its
close attempted best-effort, a fixed 0.5 s wait is performed, a fresh pool
(handle `st.nextPoolId`) is rebuilt into the registry for the same alias,
and the single post-recovery `getconn` outcome — success or failure — is
returned as is, with no second recreation.  A non-transient failure
re-raises immediately with no cleanup and an unchanged registry. -/
theorem c8_emergency_recovery_once (al : String) (now : ℚ)
    (factory : Nat → Except Base.DbErr Base.Conn)
    (behaviorOf : Nat → Base.PoolB) (st : Base.WState) (pid : Nat)
    (s : Base.Dict) (e : Base.DbErr)
    (h1 : al ≠ Base.NO_DB_ALIAS)
    (h2 : List.lookup al st.connection_pools = some pid)
    (h3 : List.lookup al st.pool_settings = some s)
    (h4 : (behaviorOf pid).res 0 = .error e) :
    (e.transient = true →
      (Base.get_new_connection al true 0 now factory behaviorOf st).cleanups = 1 ∧
      (Base.get_new_connection al true 0 now factory behaviorOf st).poppedOld = true ∧
      (Base.get_new_connection al true 0 now factory behaviorOf st).closeAttempted = true ∧
      (Base.get_new_connection al true 0 now factory behaviorOf st).sleeps = [1 / 2] ∧
      (Base.get_new_connection al true 0 now factory behaviorOf st).result =
        Base.liftD ((behaviorOf st.nextPoolId).res 0) ∧
      List.lookup al
        (Base.get_new_connection al true 0 now factory behaviorOf st).finalState.connection_pools =
        some st.nextPoolId) ∧
    (e.transient = false →
      Base.get_new_connection al true 0 now factory behaviorOf st =
        { result := .error (.db e), sleeps := [], cleanups := 0,
          poppedOld := false, closeAttempted := false, finalState := st }) := by
  have hpp : Base.poolProp al true 0 now st = .ok (some pid, st) := by
    simp [Base.poolProp, h1, h2]
  have hpop : List.lookup al
      (Base.popAlias al st.connection_pools) = none := lookup_popAlias al _
  constructor
  · intro ht
    have hpp2 : Base.poolProp al true 0 now
        ⟨Base.popAlias al st.connection_pools, st.pool_settings, st.nextPoolId⟩ =
        .ok (some st.nextPoolId,
          ⟨(al, st.nextPoolId) :: Base.popAlias al st.connection_pools,
           Base.setSettings st.pool_settings al (Base.dictSet s "created_at" now),
           st.nextPoolId + 1⟩) := by
      simp [Base.poolProp, h1, hpop, h3]
    have hclean : Base.cleanupConnections al true 0 now st =
        .ok { success := true, poppedOld := true, closeAttempted := true,
              sleeps := [1 / 2],
              state := ⟨(al, st.nextPoolId) :: Base.popAlias al st.connection_pools,
                Base.setSettings st.pool_settings al (Base.dictSet s "created_at" now),
                st.nextPoolId + 1⟩ } := by
      simp only [Base.cleanupConnections, hpp, hpp2]
    have hfinal : Base.poolProp al true 0 now
        ⟨(al, st.nextPoolId) :: Base.popAlias al st.connection_pools,
         Base.setSettings st.pool_settings al (Base.dictSet s "created_at" now),
         st.nextPoolId + 1⟩ =
        .ok (some st.nextPoolId,
          ⟨(al, st.nextPoolId) :: Base.popAlias al st.connection_pools,
           Base.setSettings st.pool_settings al (Base.dictSet s "created_at" now),
           st.nextPoolId + 1⟩) := by
      simp [Base.poolProp, h1, List.lookup]
    simp [Base.get_new_connection, hpp, Base.pooledAcquire, h4,
      Base.handlePoolExc, ht, hclean, hfinal, List.lookup]
  · intro ht
    simp [Base.get_new_connection, hpp, Base.pooledAcquire, h4,
      Base.handlePoolExc, ht]

theorem c8_emergency_recovery_once_witness :
    (Base.get_new_connection "default" true 0 42 (fun _ => .error ⟨false⟩)
      c8ExBehavior c8ExState).cleanups = 1 ∧
    (Base.get_new_connection "default" true 0 42 (fun _ => .error ⟨false⟩)
      c8ExBehavior c8ExState).sleeps = [1 / 2] ∧
    (Base.get_new_connection "default" true 0 42 (fun _ => .error ⟨false⟩)
      c8ExBehavior c8ExState).result = .ok ⟨7, false⟩ ∧
    List.lookup "default"
      (Base.get_new_connection "default" true 0 42 (fun _ => .error ⟨false⟩)
        c8ExBehavior c8ExState).finalState.connection_pools = some 1 := by
  have h := (c8_emergency_recovery_once "default" 42 (fun _ => .error ⟨false⟩)
    c8ExBehavior c8ExState 0 (Base.initSettings 1 10 5 3000 0) ⟨true⟩
    (by decide) rfl rfl rfl).1 rfl
  exact ⟨h.1, h.2.2.2.1, by rw [h.2.2.2.2.1]; rfl, h.2.2.2.2.2⟩

/-- C9: for a wrapper with an active pool, `get_pool_status` reports the
pool's size, min size, max size, max overflow, overflow in use, idle and
busy counts unchanged, and its usage percentage equals
`busy / max_size * 100`, and equals 0 when `max_size` is 0. -/
theorem c9_pool_status_fields (p : Base.PsyPoolStats) (ca : Option ℚ) :
    Base.get_pool_status (some p) ca = .active (Base.statusReport p ca) ∧
    (Base.statusReport p ca).size = p.size ∧
    (Base.statusReport p ca).min_size = p.min_size ∧
    (Base.statusReport p ca).max_size = p.max_size ∧
    (Base.statusReport p ca).max_overflow = p.max_overflow ∧
    (Base.statusReport p ca).overflow = p.overflow ∧
    (Base.statusReport p ca).idle = p.idle ∧
    (Base.statusReport p ca).busy = p.busy ∧
    (p.max_size ≠ 0 →
      (Base.statusReport p ca).usage_percent =
        (p.busy : ℚ) / (p.max_size : ℚ) * 100) ∧
    (p.max_size = 0 → (Base.statusReport p ca).usage_percent = 0) := by
  refine ⟨rfl, rfl, rfl, rfl, rfl, rfl, rfl, rfl, ?_, ?_⟩
  · intro h
    simp [Base.statusReport, Nat.pos_of_ne_zero h]
  · intro h
    simp [Base.statusReport, h]

theorem c9_pool_status_fields_witness :
    (Base.statusReport ⟨10, 2, 10, 5, 0, 3, 7⟩ none).usage_percent = 70 ∧
    (Base.statusReport ⟨0, 0, 0, 0, 0, 0, 0⟩ none).usage_percent = 0 := by
  constructor
  · rw [(c9_pool_status_fields ⟨10, 2, 10, 5, 0, 3, 7⟩ none).2.2.2.2.2.2.2.2.1
      (by decide)]
    norm_num
  · exact (c9_pool_status_fields ⟨0, 0, 0, 0, 0, 0, 0⟩ none).2.2.2.2.2.2.2.2.2 rfl

/-- C10: after `close()` on a wrapper with an active pool and a connection,
`self.connection` is `None` on every control path — connection already
closed, connection returned to the pool, and `putconn` raising (in which
case a best-effort force close runs) — and `close()` never raises on the
pool path. -/
theorem c10_close_clears_connection (c : Base.Conn)
    (putconnRaises forceCloseRaises : Bool) :
    (Base.closeWrapper (some c) true putconnRaises forceCloseRaises).connection
      = none ∧
    (Base.closeWrapper (some c) true putconnRaises forceCloseRaises).raised
      = false := by
  rcases c with ⟨i, cf⟩
  cases cf <;> cases putconnRaises <;>
    simp [Base.closeWrapper]
